import Mathlib

/-!
Shallow embedding of the Opyn data-structure library (module `src/comp` and
`src/dev/datatypes`) and verification of its specification claims.

Conventions used throughout:
* Python `None` in a storage slot is `Option.none`; occupied slots are `some x`.
* Python exceptions are values of `PyErr`; an operation that can raise returns
  `Except PyErr _`.  An operation that raises before mutating anything simply
  returns `.error e`, which models "the container is left unchanged".
* Python `while` loops whose termination is not structurally evident are given
  an explicit fuel parameter; `none` as an outer result means the loop ran out
  of every finite fuel bound, i.e. the call does not terminate.
* CPython's `hash` on the small non-negative integers used by the claims is the
  identity, so integer keys are `Nat` and `abs(hash(key))` is the key itself.
* Exact real arithmetic replaces float arithmetic: `math.log(n, 2).is_integer()`
  is `n = 2 ^ Nat.log2 n` (for `n >= 1`), the truthiness test `if math.log(n, 2):`
  is `n >= 2` (the log is `0.0`, falsy, exactly for `n = 1`), and
  `int(2 ** (math.log(n, 2) + 1))` is `2 * n`.  On the power-of-two domain where
  the code evaluates these expressions the float computations are exact, so this
  is faithful.
-/

/-- Error kinds raised by the embedded code.  `indexError`, `attrError`,
`keyError`, `valueError` and `assertError` model the Python exceptions
`IndexError`, `AttributeError` (`None` dereference), `KeyError`, `ValueError`
and `AssertionError`.  `capacityExceeded` is the spec's *CapacityExceeded*
error kind; no operation of the source ever produces it, but it is part of the
error vocabulary so that claims mentioning it can be stated. -/
inductive PyErr : Type where
  | indexError
  | attrError
  | keyError
  | valueError
  | assertError
  | capacityExceeded
  deriving DecidableEq, Repr

/-- Item type stored in the containers; the claims use strings and small
integers, and a single concrete type keeps every definition decidable. -/
abbrev Item := String

/-! ## StaticArray (`src/src/comp/arrays.py`, class `StaticArray`) -/

/-- State of `StaticArray`: the backing Python list `self._items`. -/
structure StaticArr where
  items : List (Option Item)
  deriving DecidableEq, Repr

/-- Constructor `StaticArray(length)`: `self._items = [None] * length`. -/
def StaticArr.create (length : Nat) : StaticArr :=
  ⟨List.replicate length none⟩

/-- Length `len(self)` of a static array. -/
def StaticArr.length (a : StaticArr) : Nat :=
  a.items.length

/-- Raw Python list assignment `lst[i] = x`: raises `IndexError` when
`i >= len(lst)` or `i < -len(lst)`; a negative in-range index wraps to
`len(lst) + i`. -/
def pyListSet (l : List (Option Item)) (i : Int) (x : Option Item) :
    Except PyErr (List (Option Item)) :=
  if i ≥ (l.length : Int) ∨ i < -(l.length : Int) then .error .indexError
  else if i < 0 then .ok (l.set ((l.length : Int) + i).toNat x)
  else .ok (l.set i.toNat x)

/-- Raw Python list read `lst[i]` with the same index semantics. -/
def pyListGet (l : List (Option Item)) (i : Int) :
    Except PyErr (Option Item) :=
  if i ≥ (l.length : Int) ∨ i < -(l.length : Int) then .error .indexError
  else if i < 0 then .ok (l.getD ((l.length : Int) + i).toNat none)
  else .ok (l.getD i.toNat none)

/-- Method `StaticArray.__getitem__`: explicitly checks
`index < 0 or index >= len(self)` and raises `IndexError`, otherwise reads the
backing list. -/
def StaticArr.getitem (a : StaticArr) (i : Int) : Except PyErr (Option Item) :=
  if i < 0 ∨ i ≥ (a.length : Int) then .error .indexError
  else .ok (a.items.getD i.toNat none)

/-- Method `StaticArray.__setitem__`: performs `self._items[index] = item` with
no bounds check of its own, so Python list-assignment semantics apply (negative
in-range indices silently wrap). -/
def StaticArr.setitem (a : StaticArr) (i : Int) (x : Option Item) :
    Except PyErr StaticArr :=
  (pyListSet a.items i x).map StaticArr.mk

/-- Method `StaticArray.__delitem__`: `self[index] = None`. -/
def StaticArr.delitem (a : StaticArr) (i : Int) : Except PyErr StaticArr :=
  a.setitem i none

/-! ## DynamicArray and the resize policy (`src/src/comp/arrays.py`) -/

/-- State of `DynamicArray`: backing list `self._items` plus the tracked
`self._effective_size`. -/
structure DynArr where
  items : List (Option Item)
  effSize : Nat
  deriving DecidableEq, Repr

/-- Constructor `DynamicArray()`: one empty slot, effective size `0`. -/
def DynArr.init : DynArr :=
  ⟨[none], 0⟩

/-- Capacity `len(self)` of a dynamic array. -/
def DynArr.length (a : DynArr) : Nat :=
  a.items.length

/-- Helper for `isPow2`, structurally recursive on a fuel argument so that it
evaluates by kernel reduction; `isPow2` always supplies enough fuel. -/
def isPow2Aux : Nat → Nat → Bool
  | 0, n => n == 1
  | fuel + 1, n => if n ≤ 1 then n == 1 else n % 2 == 0 && isPow2Aux fuel (n / 2)

/-- Exact reading of `math.log(n, 2).is_integer()` for `n >= 1`: whether `n`
is a power of two. -/
def isPow2 (n : Nat) : Bool :=
  isPow2Aux n n

/-- Function `needs_resize(arr)`: true when `effective_size == 0`, or when
`effective_size` is an exact power of two, or when the fill ratio is `>= 1`
(`effective_size >= capacity`), or when the fill ratio is `0.0`. -/
def needs_resize (a : DynArr) : Bool :=
  if a.effSize = 0 then true
  else if isPow2 a.effSize ∨ a.length ≤ a.effSize ∨ a.effSize = 0 then
    true
  else false

/-- Function `needs_capacity(arr)`: doubled length when fill `>= 1`; `1` when
fill is `0.0`; `int(2 ** (log2(effective_size) + 1)) = 2 * effective_size`
when `log2(effective_size)` is truthy (i.e. `effective_size >= 2`); otherwise
(`effective_size == 1`) the current length. -/
def needs_capacity (a : DynArr) : Nat :=
  if a.length ≤ a.effSize then a.length * 2
  else if a.effSize = 0 then 1
  else if 2 ≤ a.effSize then 2 * a.effSize
  else a.length

/-- Method `DynamicArray.__getitem__` (inherited from `StaticArray`): explicit
bounds check, then a read of the backing list. -/
def DynArr.getitem (a : DynArr) (i : Int) : Except PyErr (Option Item) :=
  if i < 0 ∨ i ≥ (a.length : Int) then .error .indexError
  else .ok (a.items.getD i.toNat none)

/-- Method `DynamicArray.__setitem__`: explicit bounds check raising
`IndexError`, then the `effective_size` bookkeeping (empty→occupied increments,
occupied→empty decrements, otherwise unchanged), then the write. -/
def DynArr.setitem (a : DynArr) (i : Int) (x : Option Item) :
    Except PyErr DynArr :=
  if i < 0 ∨ i ≥ (a.length : Int) then .error .indexError
  else
    let old := a.items.getD i.toNat none
    let eff :=
      match old, x with
      | none, none => a.effSize
      | none, some _ => a.effSize + 1
      | some _, none => a.effSize - 1
      | some _, some _ => a.effSize
    .ok ⟨a.items.set i.toNat x, eff⟩

/-- Method `DynamicArray.resize(capacity)`: allocates `[None] * capacity` and
copies `self[index]` for `index in range(effective_size)`; a copy out of range
of either list raises `IndexError` (before the new list is installed, so the
array is unchanged on failure). -/
def DynArr.resize (a : DynArr) (capacity : Nat) : Except PyErr DynArr :=
  if a.effSize > a.length ∨ a.effSize > capacity then .error .indexError
  else .ok ⟨a.items.take a.effSize ++ List.replicate (capacity - a.effSize) none, a.effSize⟩

/-! ## ArrayStack (`src/src/comp/collections.py`) -/

/-- State of `ArrayStack`: the backing `DynamicArray` and the separately
tracked `self._size`. -/
structure ArrayStack where
  dynarr : DynArr
  size : Nat
  deriving DecidableEq, Repr

/-- Constructor `ArrayStack()`. -/
def ArrayStack.init : ArrayStack :=
  ⟨DynArr.init, 0⟩

/-- Method `ArrayStack.pop`: `del self._dynarr[len(self)-1]` (a `__setitem__`
of `None`, which bounds-checks first), decrement the size, then shrink if the
resize policy asks for it.  The method body has no `return`, so the returned
value is Python's `None`, modelled as the first component of the pair. -/
def ArrayStack.pop (s : ArrayStack) : Except PyErr (Option Item × ArrayStack) :=
  match s.dynarr.setitem ((s.size : Int) - 1) none with
  | .error e => .error e
  | .ok d1 =>
    if needs_resize d1 then
      match d1.resize (needs_capacity d1) with
      | .error e => .error e
      | .ok d2 => .ok (none, ⟨d2, s.size - 1⟩)
    else .ok (none, ⟨d1, s.size - 1⟩)

/-- Method `ArrayStack.peek`: `self._dynarr[len(self)-1]`, a bounds-checked
read; no mutation. -/
def ArrayStack.peek (s : ArrayStack) : Except PyErr (Option Item) :=
  s.dynarr.getitem ((s.size : Int) - 1)

/-- Method `ArrayStack.push`: resize if the policy asks, write the item at
index `len(self)`, increment the size. -/
def ArrayStack.push (s : ArrayStack) (x : Item) : Except PyErr ArrayStack := do
  let d1 ←
    if needs_resize s.dynarr then s.dynarr.resize (needs_capacity s.dynarr)
    else pure s.dynarr
  let d2 ← d1.setitem (s.size : Int) (some x)
  .ok ⟨d2, s.size + 1⟩

/-! ## LinkedList (`src/src/comp/linkedlists.py`)

The doubly linked list is embedded as an arena of nodes addressed by index;
nodes are appended to the arena when created and are never physically removed
(Python garbage collection is irrelevant to observable behaviour).  `left`,
`right` and the two pointer fields of a node are `Option` node ids; `none` is
Python `None`.  Dereferencing `none` (an attribute access on `None`) raises
`AttributeError`. -/

/-- One `_Node`: the stored item and the `next`/`prev` references. -/
structure LNode where
  item : Item
  next : Option Nat
  prev : Option Nat
  deriving DecidableEq, Repr

/-- State of `LinkedList`: node arena plus `self._left`, `self._right` and
`self._size`. -/
structure LL where
  arena : List LNode
  left : Option Nat
  right : Option Nat
  size : Nat
  deriving DecidableEq, Repr

/-- Constructor `LinkedList()`. -/
def LL.init : LL :=
  ⟨[], none, none, 0⟩

/-- Arena read; ids handed out by the embedding are always in range, so the
default is never observable. -/
def LL.node (l : LL) (id : Nat) : LNode :=
  l.arena.getD id ⟨"", none, none⟩

/-- Replace the `next` field of node `id`. -/
def LL.setNext (l : LL) (id : Nat) (nxt : Option Nat) : LL :=
  { l with arena := l.arena.set id { l.node id with next := nxt } }

/-- Replace the `prev` field of node `id`. -/
def LL.setPrev (l : LL) (id : Nat) (prv : Option Nat) : LL :=
  { l with arena := l.arena.set id { l.node id with prev := prv } }

/-- The loop `while counter < index: current = current.next` of `_getnode`,
run for `steps` iterations starting from the (possibly `None`) reference
`cur`; reading `.next` of `None` raises `AttributeError`. -/
def LL.walkNext (l : LL) : Nat → Option Nat → Except PyErr (Option Nat)
  | 0, cur => .ok cur
  | steps + 1, cur =>
    match cur with
    | none => .error .attrError
    | some id => l.walkNext steps (l.node id).next

/-- The loop `while counter > index: current = current.prev` of `_getnode`,
run for `steps` iterations. -/
def LL.walkPrev (l : LL) : Nat → Option Nat → Except PyErr (Option Nat)
  | 0, cur => .ok cur
  | steps + 1, cur =>
    match cur with
    | none => .error .attrError
    | some id => l.walkPrev steps (l.node id).prev

/-- Method `LinkedList._getnode(index)`: scan from the tail backward when
`index > len(self) / 2` (true division, i.e. `2 * index > len`) and
`len(self) >= 3`, otherwise scan from the head forward.  The backward loop
starts at `counter = len(self) - 1` and runs while `counter > index`, hence
`len - 1 - index` iterations; the forward loop runs `index` iterations. -/
def LL.getnode (l : LL) (index : Nat) : Except PyErr (Option Nat) :=
  if 2 * index > l.size ∧ l.size ≥ 3 then
    l.walkPrev (l.size - 1 - index) l.right
  else
    l.walkNext index l.left

/-- Method `LinkedList.__getitem__(index)`: `self._getnode(index).item`;
reading `.item` of `None` raises `AttributeError`. -/
def LL.getitem (l : LL) (index : Nat) : Except PyErr Item := do
  match ← l.getnode index with
  | none => .error .attrError
  | some id => .ok (l.node id).item

/-- The forward head-to-tail traversal of the claim C5, written independently
of `_getnode`: follow `next` from `self._left` exactly `index` times and read
the item found there; `none` when the chain ends (or a `None` reference is
crossed) before the position is reached.  This is the naive reference scan the
spec compares the optimized scan against. -/
def LL.naiveForwardGet (l : LL) (index : Nat) : Option Item :=
  match l.walkNext index l.left with
  | .ok (some id) => some (l.node id).item
  | _ => none

/-- Method `LinkedList.insert(index, item)`: prepend when `index == 0` or the
list is empty; append via `self._right` when `index >= len(self)`; otherwise
splice before the node currently at `index`.  Attribute accesses on `None`
raise `AttributeError`. -/
def LL.insert (l : LL) (index : Nat) (x : Item) : Except PyErr LL :=
  let nid := l.arena.length
  if index = 0 ∨ l.left = none then
    match l.left with
    | none =>
      .ok ⟨l.arena ++ [⟨x, none, none⟩], some nid, some nid, l.size + 1⟩
    | some lid =>
      let l1 := l.setPrev lid (some nid)
      .ok ⟨l1.arena ++ [⟨x, some lid, none⟩], some nid, l.right, l.size + 1⟩
  else if index ≥ l.size then
    match l.right with
    | none => .error .attrError
    | some rid =>
      let l1 := l.setNext rid (some nid)
      .ok ⟨l1.arena ++ [⟨x, none, some rid⟩], l.left, some nid, l.size + 1⟩
  else do
    match ← l.getnode index with
    | none => .error .attrError
    | some cid =>
      match (l.node cid).prev with
      | none => .error .attrError
      | some pid =>
        let l1 := ((l.setNext pid (some nid)).setPrev cid (some nid))
        .ok ⟨l1.arena ++ [⟨x, some cid, some pid⟩], l1.left, l1.right, l.size + 1⟩

/-- Method `LinkedList.remove(index)`: at `index == 0` it moves `self._left`
one node to the right (leaving the new head's `prev` and, for a singleton,
`self._right` untouched); at `index == len(self) - 1` it clears the
predecessor's `next` and updates `self._right` only when the predecessor is
not `self._left`; otherwise it unlinks the interior node.  The body has no
`return`, so the returned value is Python's `None`, modelled as the first
component of the pair. -/
def LL.remove (l : LL) (index : Nat) : Except PyErr (Option Item × LL) :=
  if index = 0 then
    match l.left with
    | none => .error .attrError
    | some lid => .ok (none, { l with left := (l.node lid).next, size := l.size - 1 })
  else if index = l.size - 1 then
    match l.right with
    | none => .error .attrError
    | some rid =>
      match (l.node rid).prev with
      | none => .error .attrError
      | some pid =>
        let l1 := l.setNext pid none
        let l2 :=
          if l.left = some pid then l1
          else { l1 with right := some pid }
        .ok (none, { l2 with size := l.size - 1 })
  else
    match l.getnode index with
    | .error e => .error e
    | .ok none => .error .attrError
    | .ok (some cid) =>
      match (l.node cid).prev, (l.node cid).next with
      | none, _ => .error .attrError
      | _, none => .error .attrError
      | some pid, some nid2 =>
        let l1 := (l.setNext pid (some nid2)).setPrev nid2 (some pid)
        .ok (none, { l1 with size := l.size - 1 })

/-! ## LinkedQueue (`src/src/comp/collections.py`)

`LinkedQueue` wraps a `LinkedList`: `front` is `self._items[0]`, `enqueue`
inserts at `len(self)`, `dequeue` is `del self._items[0]` (no `return`, so the
call returns `None`). -/

/-- Method `LinkedQueue.front`. -/
def queueFront (q : LL) : Except PyErr Item :=
  q.getitem 0

/-- Method `LinkedQueue.enqueue`. -/
def queueEnqueue (q : LL) (x : Item) : Except PyErr LL :=
  q.insert q.size x

/-- Method `LinkedQueue.dequeue`: `del self._items[0]`, returning `None`. -/
def queueDequeue (q : LL) : Except PyErr (Option Item × LL) :=
  q.remove 0

/-! ## ArrayHashMap (`src/src/comp/arrays.py`, class `ArrayHashMap`)

Slots carry the three open-addressing states: `_UNUSED` (`None`), `_EMPTY`
(the tombstone sentinel) and an occupied `_MapEntry`.  Keys are small
non-negative integers, for which CPython's `abs(hash(key))` is the key itself;
values are `Nat`.  The probe loops of `_search` and `_insertion_search` carry
a fuel parameter: an outer `none` result means the loop exhausts every finite
fuel bound, i.e. the call never terminates. -/

/-- One slot of the hash table. -/
inductive Slot : Type where
  | unused
  | tomb
  | entry (key : Nat) (value : Nat)
  deriving DecidableEq, Repr

/-- State of `ArrayHashMap`: `self._table`, `self._size`, `self._max_size`. -/
structure HashMapState where
  table : List Slot
  size : Nat
  maxSize : Nat
  deriving DecidableEq, Repr

/-- Constructor `ArrayHashMap()`: seven unused slots, size `0`,
`max_size = len(table) - len(table) // 3 = 7 - 2 = 5`. -/
def HashMapState.init : HashMapState :=
  ⟨List.replicate 7 .unused, 0, 7 - 7 / 3⟩

/-- Hash `_key_hash(key) = abs(hash(key)) % len(table)`. -/
def keyHash (tableLen : Nat) (key : Nat) : Nat :=
  key % tableLen

/-- Step `_probe_hash(key) = 1 + abs(hash(key)) % (len(table) - 2)`. -/
def probeHash (tableLen : Nat) (key : Nat) : Nat :=
  1 + key % (tableLen - 2)

/-- The probe loop of `ArrayHashMap._search`: advance by `step` until the
current slot is `_UNUSED` (`some none`: key absent) or holds the key
(`some (some slot)`); `none` when the fuel runs out. -/
def searchLoop (table : List Slot) (key step : Nat) :
    Nat → Nat → Option (Option Nat)
  | 0, _ => none
  | fuel + 1, slot =>
    match table.getD slot .unused with
    | .unused => some none
    | .tomb => searchLoop table key step fuel ((slot + step) % table.length)
    | .entry k _ =>
      if k = key then some (some slot)
      else searchLoop table key step fuel ((slot + step) % table.length)

/-- Method `ArrayHashMap._search(key)`. -/
def hashSearch (fuel : Nat) (m : HashMapState) (key : Nat) : Option (Option Nat) :=
  searchLoop m.table key (probeHash m.table.length key) fuel
    (keyHash m.table.length key)

/-- The probe loop of `ArrayHashMap._insertion_search`: advance while the
current slot is occupied, stopping at the first `_EMPTY` or `_UNUSED` slot. -/
def insLoop (table : List Slot) (step : Nat) : Nat → Nat → Option Nat
  | 0, _ => none
  | fuel + 1, slot =>
    match table.getD slot .unused with
    | .entry _ _ => insLoop table step fuel ((slot + step) % table.length)
    | _ => some slot

/-- Method `ArrayHashMap._insertion_search(key)` over a given table. -/
def insertionSearch (fuel : Nat) (table : List Slot) (key : Nat) : Option Nat :=
  insLoop table (probeHash table.length key) fuel (keyHash table.length key)

/-- Method `ArrayHashMap.__contains__(key)`: `self._search(key) is not None`. -/
def hashContains (fuel : Nat) (m : HashMapState) (key : Nat) : Option Bool :=
  (hashSearch fuel m key).map Option.isSome

/-- The reinsertion loop of `ArrayHashMap._rehash`: fold the slots of the
original table in slot order, reinserting each occupied entry into the new
table via a fresh insertion probe and counting it. -/
def rehashLoop (fuel : Nat) :
    List Slot → List Slot → Nat → Option (List Slot × Nat)
  | [], table, size => some (table, size)
  | .entry k v :: rest, table, size =>
    match insertionSearch fuel table k with
    | none => none
    | some slot => rehashLoop fuel rest (table.set slot (.entry k v)) (size + 1)
  | .unused :: rest, table, size => rehashLoop fuel rest table size
  | .tomb :: rest, table, size => rehashLoop fuel rest table size

/-- Method `ArrayHashMap._rehash()`: allocate `2 * len(table) + 1` unused
slots, set `self._max_size` to that same number (the source assigns the new
*capacity* to `_max_size`), reset the size and reinsert the occupied
entries. -/
def hashRehash (fuel : Nat) (m : HashMapState) : Option HashMapState :=
  let newLen := 2 * m.table.length + 1
  (rehashLoop fuel m.table (List.replicate newLen .unused) 0).map
    fun p => ⟨p.1, p.2, newLen⟩

/-- Method `ArrayHashMap.__setitem__(key, value)`: if the key is present the
entry's value is replaced (returning `False`); otherwise the entry is placed
at the first free probe slot, the size is incremented, and a rehash runs when
the size reaches `max_size` (returning `True`). -/
def hashSetItem (fuel : Nat) (m : HashMapState) (key value : Nat) :
    Option (Bool × HashMapState) :=
  match hashSearch fuel m key with
  | none => none
  | some (some slot) =>
    some (false, { m with table := m.table.set slot (.entry key value) })
  | some none =>
    match insertionSearch fuel m.table key with
    | none => none
    | some slot =>
      let m1 : HashMapState :=
        { m with table := m.table.set slot (.entry key value), size := m.size + 1 }
      if m1.size = m1.maxSize then
        (hashRehash fuel m1).map fun m2 => (true, m2)
      else some (true, m1)

/-- Method `ArrayHashMap.__getitem__(key)`: asserts membership (an absent key
raises `AssertionError`, the inner `none`), then reads the entry's value. -/
def hashGetItem (fuel : Nat) (m : HashMapState) (key : Nat) :
    Option (Option Nat) :=
  match hashSearch fuel m key with
  | none => none
  | some none => some none
  | some (some slot) =>
    some (match m.table.getD slot .unused with
      | .entry _ v => some v
      | _ => none)

/-- Method `ArrayHashMap.__delitem__(key)`: asserts membership (inner `none`
on an absent key), then overwrites the slot with the tombstone and decrements
the size. -/
def hashDelItem (fuel : Nat) (m : HashMapState) (key : Nat) :
    Option (Option HashMapState) :=
  match hashSearch fuel m key with
  | none => none
  | some none => some none
  | some (some slot) =>
    some (some { m with table := m.table.set slot .tomb, size := m.size - 1 })

/-! ## MaxPriorityQueue (`src/src/comp/collections.py`, dict-backed)

`self._items` is a Python `dict[int, deque]`; dicts preserve insertion order
of their keys, so the state is an association list in key-insertion order.
Each deque is a list with its front at the head. -/

/-- State of the dict-backed `MaxPriorityQueue`. -/
abbrev PQState := List (Nat × List Item)

/-- Dict lookup `self._items[priority]` (`none` models `KeyError`). -/
def pqLookup (s : PQState) (p : Nat) : Option (List Item) :=
  (s.find? fun b => b.1 = p).map Prod.snd

/-- Replace the deque stored under an existing priority key. -/
def pqUpdate (s : PQState) (p : Nat) (d : List Item) : PQState :=
  s.map fun b => if b.1 = p then (b.1, d) else b

/-- Method `MaxPriorityQueue.insert(item, priority)`: append to the existing
deque of that priority, or bind the priority to a fresh one-element deque
(appending the key in dict insertion order). -/
def pqInsert (s : PQState) (x : Item) (p : Nat) : PQState :=
  match pqLookup s p with
  | some d => pqUpdate s p (d ++ [x])
  | none => s ++ [(p, [x])]

/-- Method `MaxPriorityQueue.__len__`: the total number of stored items. -/
def pqLen (s : PQState) : Nat :=
  (s.map fun b => b.2.length).sum

/-- Method `MaxPriorityQueue.find_max()`: `max(self._items.keys())` raises
`ValueError` on an empty dict; otherwise the method returns
`self._items[max_priority]` — the whole deque object, not an item of it. -/
def pqFindMax (s : PQState) : Except PyErr (List Item) :=
  match s with
  | [] => .error .valueError
  | _ =>
    let maxKey := (s.map Prod.fst).foldl max 0
    match pqLookup s maxKey with
    | some d => .ok d
    | none => .error .keyError

/-- The scan loop of `MaxPriorityQueue.remove_max()`: `priority` starts at `1`
and the loop runs while `priority <= len(self._items)` (the number of dict
*keys*); each iteration indexes `self._items[priority]`, raising `KeyError`
when that integer is not a key, and pops the leftmost item of the first
non-empty deque it reaches.  `remaining` counts the iterations the guard still
allows. -/
def pqRemoveLoop (s : PQState) : Nat → Nat → Except PyErr PQState
  | 0, _ => .ok s
  | remaining + 1, priority =>
    match pqLookup s priority with
    | none => .error .keyError
    | some d =>
      if d.length ≥ 1 then .ok (pqUpdate s priority (d.drop 1))
      else pqRemoveLoop s remaining (priority + 1)

/-- Method `MaxPriorityQueue.remove_max()`: run the scan loop from priority
`1`; the method ends with `return None`, so the returned value is `None`
(paired with the post-state).  When the loop guard fails immediately (empty
dict) the method simply returns without raising. -/
def pqRemoveMax (s : PQState) : Except PyErr (Option Item × PQState) :=
  (pqRemoveLoop s s.length 1).map fun s2 => (none, s2)

/-! ## BoundedVector and BoundedSequence
(`src/src/dev/datatypes/vectors.py`, `src/src/dev/datatypes/sequences.py`)

`BoundedVector` stores a `StaticArray` of fixed capacity plus `self._size`.
The `dev/datatypes` arrays module itself is not present under `src/`; the
claim that exercises this code (C8) names `src/src/comp/arrays.py`'s
`StaticArray.__setitem__` as the backing write, and that class is what
`StaticArr` above embeds.  `BoundedVector.insert` shifts the suffix right via
bounds-checked reads (`Vector.__getitem__` delegates to
`StaticArray.__getitem__`) and unchecked writes (`Vector.__setitem__`
delegates to `StaticArray.__setitem__`), then writes the item and increments
the size; it performs no capacity check of its own.
`BoundedSequence.append(item)` is `insert(len(self), item)`. -/

/-- State of `BoundedVector` / `BoundedSequence`. -/
structure BoundedVec where
  items : StaticArr
  size : Nat
  deriving DecidableEq, Repr

/-- Constructor `BoundedVector(capacity)`. -/
def BoundedVec.create (capacity : Nat) : BoundedVec :=
  ⟨StaticArr.create capacity, 0⟩

/-- The shift loop of `BoundedVector.insert`:
`for position in range(len(self) - 1, index - 1, -1): self[position + 1] = self[position]`,
expressed by recursion on the number of remaining iterations;
`position = index + remaining - 1` counts down to `index`. -/
def bvShiftLoop (index : Nat) : Nat → StaticArr → Except PyErr StaticArr
  | 0, a => .ok a
  | remaining + 1, a => do
    let position := index + remaining
    let x ← a.getitem (position : Int)
    let a1 ← a.setitem ((position : Int) + 1) x
    bvShiftLoop index remaining a1

/-- Method `BoundedVector.insert(index, item)`: shift the items at positions
`index .. len(self)-1` one place right, write the item at `index`, increment
the size.  No capacity check is made; exceeding the backing array raises
`IndexError` from the shift or the final write, before the size changes. -/
def BoundedVec.insert (v : BoundedVec) (index : Nat) (x : Item) :
    Except PyErr BoundedVec := do
  let a1 ← bvShiftLoop index (v.size - index) v.items
  let a2 ← a1.setitem (index : Int) (some x)
  .ok ⟨a2, v.size + 1⟩

/-- Method `BoundedSequence.append(item)`: `self.insert(len(self), item)`. -/
def BoundedVec.append (v : BoundedVec) (x : Item) : Except PyErr BoundedVec :=
  v.insert v.size x

/-! ## Concrete states used by the claims -/

/-- Fuel used for the concrete hash-map computations; every probe loop below
terminates well within this bound. -/
def hmFuel : Nat := 100

/-- Chain a `__setitem__` call onto a possibly failed map computation,
keeping the post-state. -/
def trySet (om : Option HashMapState) (k v : Nat) : Option HashMapState :=
  om.bind fun m => (hashSetItem hmFuel m k v).map Prod.snd

/-- Chain a `__delitem__` call onto a possibly failed map computation. -/
def tryDel (om : Option HashMapState) (k : Nat) : Option HashMapState :=
  om.bind fun m => (hashDelItem hmFuel m k).bind id

/-- Claim C1's value for key `k`. -/
def c1Val (k : Nat) : Nat := 10 * k

/-- The map after inserting keys `1, 2, 3, 4` (values `10 * k`) into a fresh
`ArrayHashMap`. -/
def c1Map4 : Option HashMapState :=
  trySet (trySet (trySet (trySet (some HashMapState.init) 1 10) 2 20) 3 30) 4 40

/-- The map after also inserting key `5`, the insertion that crosses
`max_size` and triggers the rehash. -/
def c1Map5 : Option HashMapState :=
  trySet c1Map4 5 50

/-- Claim C2's failing state: insert keys `0..3`, delete all four (leaving
four tombstones), then insert keys `4, 5, 6` into the three remaining unused
slots.  Every slot of the capacity-7 table is now a tombstone or an entry;
no slot is `_UNUSED`. -/
def c2Bad : Option HashMapState :=
  trySet (trySet (trySet
    (tryDel (tryDel (tryDel (tryDel
      (trySet (trySet (trySet (trySet (some HashMapState.init) 0 100) 1 101) 2 102) 3 103)
      0) 1) 2) 3)
    4 104) 5 105) 6 106

/-- The C2 failing state written out: four tombstones and the entries for
keys `4, 5, 6`. -/
def c2BadState : HashMapState :=
  ⟨[.tomb, .tomb, .tomb, .tomb, .entry 4 104, .entry 5 105, .entry 6 106], 3, 5⟩

/-- Claim C3's queue: `insert("a", 1)` then `insert("b", 2)`. -/
def c3Queue : PQState :=
  pqInsert (pqInsert [] "a" 1) "b" 2

/-- Chain a `LinkedList.insert` onto a possibly failed list computation. -/
def tryLLInsert (ol : Except PyErr LL) (i : Nat) (x : Item) : Except PyErr LL :=
  ol.bind fun l => l.insert i x

/-- Chain a `LinkedList.remove` onto a possibly failed list computation,
keeping the post-state. -/
def tryLLRemove (ol : Except PyErr LL) (i : Nat) : Except PyErr LL :=
  ol.bind fun l => (l.remove i).map Prod.snd

/-- Claim C5's failing state: `insert(0,"a"); insert(1,"b"); remove(1);
insert(1,"c"); insert(2,"d")` on a fresh `LinkedList`.  The removal of the
tail of the two-element list leaves `self._right` pointing at the removed
node, so the two later appends relink through it while the head's `next`
stays `None`. -/
def c5List : Except PyErr LL :=
  tryLLInsert (tryLLInsert (tryLLRemove
    (tryLLInsert (tryLLInsert (.ok LL.init) 0 "a") 1 "b") 1) 1 "c") 2 "d"

/-- Claim C8's sequence: a capacity-3 `BoundedSequence` holding
`"a", "b", "c"`. -/
def c8Seq : Except PyErr BoundedVec :=
  ((BoundedVec.create 3).append "a").bind fun v =>
    (v.append "b").bind fun v2 => v2.append "c"

/-- The C8 sequence written out. -/
def c8SeqState : BoundedVec :=
  ⟨⟨[some "a", some "b", some "c"]⟩, 3⟩

/-- Claim C9's array: a length-3 `StaticArray` holding `"x", "y", "z"`. -/
def c9Arr : StaticArr :=
  ⟨[some "x", some "y", some "z"]⟩

/-- A one-item stack used to witness C10: `ArrayStack()` then `push("x")`. -/
def c10Stack : Except PyErr ArrayStack :=
  ArrayStack.init.push "x"

/-- A one-item linked queue used to witness C10. -/
def c10Queue : Except PyErr LL :=
  queueEnqueue LL.init "x"

/-- A one-item priority queue used to witness C10. -/
def c10PQ : PQState :=
  pqInsert [] "a" 1

/-- The C1 map after four insertions, written out: keys `1..4` at their home
slots of the capacity-7 table, no rehash yet. -/
def c1Map4State : HashMapState :=
  ⟨[.unused, .entry 1 10, .entry 2 20, .entry 3 30, .entry 4 40, .unused, .unused], 4, 5⟩

/-- The C1 map after the fifth insertion, written out: the rehash has run, the
table has `2 * 7 + 1 = 15` slots and keys `1..5` sit at their home slots. -/
def c1Map5State : HashMapState :=
  ⟨[.unused, .entry 1 10, .entry 2 20, .entry 3 30, .entry 4 40, .entry 5 50,
    .unused, .unused, .unused, .unused, .unused, .unused, .unused, .unused, .unused],
    5, 15⟩

/-- Result of rehashing a fresh map, used to witness the amended C4. -/
def c4Rehashed : HashMapState :=
  ⟨List.replicate 15 .unused, 0, 15⟩

/-- The C5 failing state written out: the heap holds the four nodes ever
created; node 0 (`"a"`) is the head with `next = None`, while nodes 1→2→3
(`"b"`, `"c"`, `"d"`) hang off the stale tail reference. -/
def c5ListState : LL :=
  ⟨[⟨"a", none, none⟩, ⟨"b", some 2, some 0⟩, ⟨"c", some 3, some 1⟩, ⟨"d", none, some 2⟩],
    some 0, some 3, 3⟩

/-- Claim C6's counterexample array: capacity 3, effective size 1, reachable
by `DynamicArray(); resize(3); self[0] = "x"`. -/
def c6Arr : DynArr :=
  ⟨[some "x", none, none], 1⟩

/-- A capacity-5 array with effective size `2 = 2 ^ 1`, used to witness the
power-of-two branch of the amended C6. -/
def c6ArrB : DynArr :=
  ⟨[some "x", some "y", none, none, none], 2⟩

/-! ## Helper lemmas -/

/-- Reinsertion during `_rehash` never changes the length of the new table:
every write is a `List.set`. -/
theorem rehashLoop_length (fuel : Nat) :
    ∀ entries table size t s,
      rehashLoop fuel entries table size = some (t, s) → t.length = table.length := by
  intro entries
  induction entries with
  | nil =>
    intro table size t s h
    simp [rehashLoop] at h
    simp [h.1.symm]
  | cons e rest ih =>
    intro table size t s h
    cases e with
    | unused => exact ih table size t s h
    | tomb => exact ih table size t s h
    | entry k v =>
      simp only [rehashLoop] at h
      cases hins : insertionSearch fuel table k with
      | none => rw [hins] at h; exact absurd h (by simp)
      | some slot =>
        rw [hins] at h
        have := ih (table.set slot (.entry k v)) (size + 1) t s h
        simpa using this

/-- On the C2 failing table every slot of the capacity-7 table is a tombstone
or an entry whose key is not `10`, so the probe loop of `_search` never meets
its exit conditions: it exhausts every fuel bound. -/
theorem searchLoop_c2_spins :
    ∀ fuel slot, slot < 7 → searchLoop c2BadState.table 10 1 fuel slot = none := by
  intro fuel
  induction fuel with
  | zero => intro slot _; rfl
  | succ n ih =>
    intro slot hs
    interval_cases slot <;> exact ih _ (by decide)

/-! ## Claim theorems -/

/-- C1: starting from an empty `ArrayHashMap` (capacity 7, rehash threshold
`max_size = 7 - 7 // 3 = 5`), inserting the distinct keys `1..5` leaves the
first four insertions at capacity 7 (no rehash), while the fifth insertion
triggers the one rehash: afterwards the capacity is `15 = 2 * 7 + 1`, the
size is `5` both before the rehash (four prior entries plus the new one) and
after it, and each of the five keys is still retrievable with its originally
inserted value `10 * k`. -/
theorem c1_rehash_scenario :
    c1Map4 = some c1Map4State ∧
    c1Map4State.table.length = 7 ∧
    c1Map4State.size = 4 ∧
    c1Map5 = some c1Map5State ∧
    c1Map5State.table.length = 15 ∧
    c1Map5State.table.length = 2 * c1Map4State.table.length + 1 ∧
    c1Map5State.size = 5 ∧
    hashGetItem hmFuel c1Map5State 1 = some (some (c1Val 1)) ∧
    hashGetItem hmFuel c1Map5State 2 = some (some (c1Val 2)) ∧
    hashGetItem hmFuel c1Map5State 3 = some (some (c1Val 3)) ∧
    hashGetItem hmFuel c1Map5State 4 = some (some (c1Val 4)) ∧
    hashGetItem hmFuel c1Map5State 5 = some (some (c1Val 5)) := by
  refine ⟨rfl, rfl, rfl, rfl, rfl, rfl, rfl, rfl, rfl, rfl, rfl, rfl⟩

/-- C2: the claim (set-then-get round-trip and delete-then-absent on every
reachable state) is broken by the code: after `set` of keys `0..3`, `delete`
of all four, and `set` of keys `4, 5, 6` — a reachable 11-operation history —
the capacity-7 table holds four tombstones and three entries, with no
`_UNUSED` slot left.  `_search` for the absent key `10` (home slot 3, step 1)
then probes forever: `contains`, `get` and `set` on key `10` exhaust every
fuel bound, so `set(10, v)` never returns and no `get` can follow it. -/
theorem c2_search_never_terminates :
    c2Bad = some c2BadState ∧
    (∀ fuel, hashContains fuel c2BadState 10 = none) ∧
    (∀ fuel, hashGetItem fuel c2BadState 10 = none) ∧
    (∀ fuel, hashSetItem fuel c2BadState 10 99 = none) := by
  have hspin : ∀ fuel, hashSearch fuel c2BadState 10 = none := by
    intro fuel
    have := searchLoop_c2_spins fuel 3 (by norm_num)
    simpa [hashSearch, keyHash, probeHash, c2BadState] using this
  refine ⟨rfl, ?_, ?_, ?_⟩
  · intro fuel; simp [hashContains, hspin fuel]
  · intro fuel; simp [hashGetItem, hspin fuel]
  · intro fuel; simp [hashSetItem, hspin fuel]

/-- C4 counterexample: the state reached by inserting keys `1..5` into a
fresh `ArrayHashMap` — the state produced by the first rehash — has
`max_size = 15` while its capacity is `15`, and
`15 - 15 // 3 = 10 ≠ 15`; the claimed invariant fails in a reachable state. -/
theorem c4_counterexample :
    c1Map5 = some c1Map5State ∧
    c1Map5State.maxSize ≠ c1Map5State.table.length - c1Map5State.table.length / 3 := by
  exact ⟨rfl, by decide⟩

/-- C4 amended: the relation `max_size = capacity - capacity // 3` holds in
the initial state (`5 = 7 - 2`), but `_rehash` assigns the new *capacity*
`2 * old_capacity + 1` to `max_size`, so in every state a rehash produces,
`max_size` equals the table capacity instead. -/
theorem c4_amended :
    HashMapState.init.maxSize =
      HashMapState.init.table.length - HashMapState.init.table.length / 3 ∧
    (∀ fuel m m2, hashRehash fuel m = some m2 →
      m2.maxSize = m2.table.length ∧ m2.table.length = 2 * m.table.length + 1) := by
  refine ⟨by decide, ?_⟩
  intro fuel m m2 h
  simp only [hashRehash, Option.map_eq_some'] at h
  obtain ⟨⟨t, s⟩, hloop, hm2⟩ := h
  have hlen := rehashLoop_length fuel m.table (List.replicate (2 * m.table.length + 1) .unused) 0 t s hloop
  simp only [List.length_replicate] at hlen
  cases hm2
  exact ⟨hlen.symm, hlen⟩

/-- Witness for the amended C4: rehashing a fresh map yields the concrete
state `c4Rehashed`, whose `max_size` equals its capacity `15 = 2 * 7 + 1`. -/
theorem c4_amended_witness :
    hashRehash 50 HashMapState.init = some c4Rehashed ∧
    c4Rehashed.maxSize = c4Rehashed.table.length ∧
    c4Rehashed.table.length = 2 * HashMapState.init.table.length + 1 :=
  ⟨rfl, (c4_amended.2 50 HashMapState.init c4Rehashed rfl).1,
    (c4_amended.2 50 HashMapState.init c4Rehashed rfl).2⟩

/-- C3: the claim (find_max returns the highest-priority item, remove_max
removes the earliest-inserted item among the highest priority) is broken by
the code.  On the queue built by `insert("a", 1); insert("b", 2)`:
`find_max` returns the whole priority-2 deque `["b"]`, not the item `"b"`;
`remove_max` scans priorities upward from `1` and pops `"a"` — the item with
the LOWEST priority — leaving `"b"` enqueued.  Moreover on the queue holding
only `insert("a", 5)` the scan indexes the absent dict key `1` and raises
`KeyError`. -/
theorem c3_remove_max_behaviour :
    c3Queue = [(1, ["a"]), (2, ["b"])] ∧
    pqFindMax c3Queue = .ok ["b"] ∧
    pqRemoveMax c3Queue = .ok (none, [(1, []), (2, ["b"])]) ∧
    pqRemoveMax [(5, ["a"])] = .error .keyError := by
  refine ⟨rfl, rfl, rfl, rfl⟩

/-- C5: the claim (the optimized, possibly backward, scan of `get(i)` agrees
with a naive forward head-to-tail traversal on every reachable state) is
broken by the code.  After `insert(0,"a"); insert(1,"b"); remove(1);
insert(1,"c"); insert(2,"d")`, the index `2` is valid (`size = 3`), the
optimized scan answers `"d"` (one step back from the stale tail reference),
but the forward traversal from the head finds no element at index `2` — the
head's `next` is `None`, because `remove(1)` on the two-element list cleared
it and left `self._right` pointing at the removed node, through which the two
later appends were linked. -/
theorem c5_traversal_divergence :
    c5List = .ok c5ListState ∧
    c5ListState.size = 3 ∧
    c5ListState.getitem 2 = .ok "d" ∧
    c5ListState.naiveForwardGet 2 = none := by
  refine ⟨rfl, rfl, rfl, rfl⟩

/-- C6 counterexample: the dynamic array reached by
`DynamicArray(); resize(3); self[0] = "x"` has `effective_size = 1` and
capacity `3`; `needs_resize` holds (`1` is an exact power of two), the claim
demands `needs_capacity = 2 ^ (floor(log2 1) + 1) = 2`, but the code's branch
test `if math.log(1, 2):` sees the falsy `0.0`, falls through, and returns
the current length `3`. -/
theorem c6_counterexample :
    ((DynArr.init.resize 3).bind fun d => d.setitem 0 (some "x")) = .ok c6Arr ∧
    needs_resize c6Arr = true ∧
    c6Arr.effSize = 1 ∧
    needs_capacity c6Arr = 3 ∧
    (3 : Nat) ≠ 2 := by
  refine ⟨rfl, rfl, rfl, rfl, by decide⟩

/-- C6 amended: on every dynamic array with at least one slot for which
`needs_resize` holds, `needs_capacity` returns twice the current length when
the fill ratio is `>= 1`; `1` when `effective_size = 0`; for `effective_size`
an exact power of two `2 ^ k` with `k >= 1` (and fill `< 1`) it returns
`2 ^ (k + 1)`, the claimed `2 ^ (floor(log2(effective_size)) + 1)`; but for
`effective_size = 1` (and fill `< 1`) it returns the current length, not `2`,
because the branch test `if math.log(effective_size, 2):` is falsy there. -/
theorem c6_amended (a : DynArr) (hlen : 0 < a.length)
    (_hres : needs_resize a = true) :
    (a.length ≤ a.effSize → needs_capacity a = a.length * 2) ∧
    (a.effSize = 0 → needs_capacity a = 1) ∧
    (∀ k, 1 ≤ k → a.effSize = 2 ^ k → a.effSize < a.length →
      needs_capacity a = 2 ^ (k + 1)) ∧
    (a.effSize = 1 → a.effSize < a.length → needs_capacity a = a.length) := by
  refine ⟨?_, ?_, ?_, ?_⟩
  · intro hfill
    simp [needs_capacity, hfill]
  · intro h0
    have hnf : ¬ a.length ≤ a.effSize := by omega
    rw [needs_capacity, if_neg hnf, if_pos h0]
  · intro k hk hpow hfill
    have h2 : 2 ≤ a.effSize := by
      rw [hpow]
      calc 2 = 2 ^ 1 := by norm_num
        _ ≤ 2 ^ k := Nat.pow_le_pow_right (by norm_num) hk
    have hne : a.effSize ≠ 0 := by omega
    have hnf : ¬ a.length ≤ a.effSize := by omega
    simp only [needs_capacity, if_neg hnf, if_neg hne, if_pos h2]
    rw [hpow, pow_succ, Nat.mul_comm]
  · intro h1 hfill
    have hnf : ¬ a.length ≤ a.effSize := by omega
    have hne : a.effSize ≠ 0 := by omega
    have hn2 : ¬ 2 ≤ a.effSize := by omega
    rw [needs_capacity, if_neg hnf, if_neg hne, if_neg hn2]

/-- Witness for the amended C6: on the concrete array `c6ArrB` (capacity 5,
`effective_size = 2 = 2 ^ 1`, `needs_resize` holds) the power-of-two branch
returns `2 ^ (1 + 1) = 4`, and on `c6Arr` (`effective_size = 1`) the final
branch returns the length `3`. -/
theorem c6_amended_witness :
    needs_resize c6ArrB = true ∧
    needs_capacity c6ArrB = 2 ^ (1 + 1) ∧
    needs_capacity c6Arr = c6Arr.length :=
  ⟨by decide,
    (c6_amended c6ArrB (by decide) (by decide)).2.2.1 1 (by decide) rfl (by decide),
    (c6_amended c6Arr (by decide) (by decide)).2.2.2 rfl (by decide)⟩

/-- C7 counterexample: `remove_max()` on a zero-length dict-backed
`MaxPriorityQueue` does not fail at all — the scan loop's guard
`priority <= len(self._items)` is false immediately, so the method silently
returns `None` and leaves the queue unchanged, contradicting the claimed
*EmptyContainer* failure. -/
theorem c7_counterexample :
    pqRemoveMax ([] : PQState) = .ok (none, ([] : PQState)) := rfl

/-- C7 amended: the empty-container operations do not raise an
*EmptyContainer* error.  `pop`/`peek` on a zero-length `ArrayStack` raise
`IndexError` (the bounds check of the backing array at index `-1`);
`dequeue`/`front` on an empty `LinkedQueue` raise `AttributeError` (a `None`
dereference in the backing linked list); `find_max` on an empty
`MaxPriorityQueue` raises `ValueError` (from `max` of an empty key view);
and `remove_max` on an empty `MaxPriorityQueue` succeeds silently, returning
`None` with the queue unchanged.  In every raising case the container is
unmodified, the exception being raised before any mutation. -/
theorem c7_amended :
    (∀ d : DynArr, ArrayStack.pop ⟨d, 0⟩ = .error .indexError) ∧
    (∀ d : DynArr, ArrayStack.peek ⟨d, 0⟩ = .error .indexError) ∧
    queueDequeue LL.init = .error .attrError ∧
    queueFront LL.init = .error .attrError ∧
    pqFindMax ([] : PQState) = .error .valueError ∧
    pqRemoveMax ([] : PQState) = .ok (none, ([] : PQState)) := by
  refine ⟨?_, ?_, rfl, rfl, rfl, rfl⟩
  · intro d
    have hneg : ((0 : Nat) : Int) - 1 < 0 ∨ ((0 : Nat) : Int) - 1 ≥ (d.length : Int) := by
      left; norm_num
    show ArrayStack.pop ⟨d, 0⟩ = .error .indexError
    unfold ArrayStack.pop
    simp only [DynArr.setitem, if_pos hneg]
  · intro d
    have hneg : ((0 : Nat) : Int) - 1 < 0 ∨ ((0 : Nat) : Int) - 1 ≥ (d.length : Int) := by
      left; norm_num
    show ArrayStack.peek ⟨d, 0⟩ = .error .indexError
    unfold ArrayStack.peek
    simp only [DynArr.getitem, if_pos hneg]

/-- C8 counterexample: on the capacity-3 `BoundedSequence` holding
`"a", "b", "c"`, the fourth `append` fails with `IndexError` — the spec's
*IndexOutOfBounds* kind — and not with the claimed *CapacityExceeded*. -/
theorem c8_counterexample :
    c8Seq = .ok c8SeqState ∧
    c8SeqState.append "d" = .error .indexError ∧
    PyErr.indexError ≠ PyErr.capacityExceeded := by
  refine ⟨rfl, rfl, by decide⟩

/-- C8 amended: inserting `"a", "b", "c"` into a fixed-capacity sequence of
capacity 3 succeeds step by step; the fourth insert fails with an
*IndexOutOfBounds* error (`IndexError` from the unchecked backing-array write
at index 3) rather than *CapacityExceeded*, and since the failure happens
before the size update or any slot write, the sequence still contains exactly
`["a", "b", "c"]` with length 3. -/
theorem c8_amended :
    (BoundedVec.create 3).append "a" = .ok ⟨⟨[some "a", none, none]⟩, 1⟩ ∧
    (BoundedVec.mk ⟨[some "a", none, none]⟩ 1).append "b" =
      .ok ⟨⟨[some "a", some "b", none]⟩, 2⟩ ∧
    (BoundedVec.mk ⟨[some "a", some "b", none]⟩ 2).append "c" = .ok c8SeqState ∧
    c8SeqState.append "d" = .error .indexError ∧
    c8SeqState.items.items = [some "a", some "b", some "c"] ∧
    c8SeqState.size = 3 := by
  refine ⟨rfl, rfl, rfl, rfl, rfl, rfl⟩

/-- C9 counterexample: on a length-3 `StaticArray` holding `"x", "y", "z"`,
`set(-1, "w")` does not fail — the unchecked backing-list write wraps the
negative index and silently replaces slot 2 — contradicting the claimed
*IndexOutOfBounds* failure with all slots unchanged. -/
theorem c9_counterexample :
    c9Arr.setitem (-1) (some "w") = .ok ⟨[some "x", some "y", some "w"]⟩ ∧
    (⟨[some "x", some "y", some "w"]⟩ : StaticArr) ≠ c9Arr := by
  refine ⟨rfl, by decide⟩

/-- C9 amended: for a `StaticArray` of length N, `get(i)` fails with
*IndexOutOfBounds* for every `i < 0` or `i >= N` (its explicit bounds check),
while the unchecked `set(i, item)` and `clear(i)` fail with *IndexOutOfBounds*
exactly when `i >= N` or `i < -N`, leaving the array unchanged; for
`-N <= i < 0` they instead succeed silently, writing slot `N + i` (Python's
negative-index wrap-around); for `0 <= i < N` all three operations succeed. -/
theorem c9_amended (a : StaticArr) (i : Int) :
    ((i < 0 ∨ (a.length : Int) ≤ i) → a.getitem i = .error .indexError) ∧
    (((a.length : Int) ≤ i ∨ i < -(a.length : Int)) →
      (∀ x, a.setitem i x = .error .indexError) ∧ a.delitem i = .error .indexError) ∧
    (-(a.length : Int) ≤ i → i < 0 →
      ∀ x, a.setitem i x = .ok ⟨a.items.set ((a.length : Int) + i).toNat x⟩) ∧
    (0 ≤ i → i < (a.length : Int) →
      a.getitem i = .ok (a.items.getD i.toNat none) ∧
      (∀ x, a.setitem i x = .ok ⟨a.items.set i.toNat x⟩) ∧
      a.delitem i = .ok ⟨a.items.set i.toNat none⟩) := by
  have hL : (0 : Int) ≤ (a.length : Int) := Int.ofNat_nonneg a.length
  have hEq : a.length = a.items.length := rfl
  refine ⟨?_, ?_, ?_, ?_⟩
  · intro h
    rw [StaticArr.getitem, if_pos (by omega)]
  · intro h
    constructor
    · intro x
      rw [StaticArr.setitem, pyListSet, if_pos (by omega)]
      rfl
    · rw [StaticArr.delitem, StaticArr.setitem, pyListSet, if_pos (by omega)]
      rfl
  · intro h1 h2 x
    rw [StaticArr.setitem, pyListSet, if_neg (by omega), if_pos h2]
    rfl
  · intro h1 h2
    refine ⟨?_, ?_, ?_⟩
    · rw [StaticArr.getitem, if_neg (by omega)]
    · intro x
      rw [StaticArr.setitem, pyListSet, if_neg (by omega), if_neg (by omega)]
      rfl
    · rw [StaticArr.delitem, StaticArr.setitem, pyListSet, if_neg (by omega), if_neg (by omega)]
      rfl

/-- Witness for the amended C9 on the concrete array `c9Arr` (length 3):
`get(5)` fails with `IndexError`, `set(-1, "w")` silently writes slot
`3 + (-1) = 2`, and `get(1)` succeeds. -/
theorem c9_amended_witness :
    c9Arr.getitem 5 = .error .indexError ∧
    c9Arr.setitem (-1) (some "w") =
      .ok ⟨c9Arr.items.set (((c9Arr.length : Int) + -1).toNat) (some "w")⟩ ∧
    c9Arr.getitem 1 = .ok (c9Arr.items.getD (1 : Int).toNat none) :=
  ⟨(c9_amended c9Arr 5).1 (by decide),
    (c9_amended c9Arr (-1)).2.2.1 (by decide) (by decide) (some "w"),
    ((c9_amended c9Arr 1).2.2.2 (by decide) (by decide)).1⟩

/-- Removal from a linked list returns `None` on every completed call: each
successful branch of `LinkedList.remove` produces the pair `(none, _)`. -/
theorem LL_remove_value_none (l : LL) (i : Nat) (r : Option Item) (l2 : LL)
    (h : l.remove i = .ok (r, l2)) : r = none := by
  unfold LL.remove at h
  repeat' split at h
  all_goals simp_all

/-- C10: every removal operation — `ArrayStack.pop`, `LinkedQueue.dequeue`,
`MaxPriorityQueue.remove_max` and `LinkedList.remove` — returns Python's
`None` (not the removed item) on every call that completes: none of the
method bodies returns a value.  Reading the removed element therefore
requires a separate `peek`/`front`/`get` call made before the removal. -/
theorem c10_removals_return_none :
    (∀ s r s2, ArrayStack.pop s = .ok (r, s2) → r = none) ∧
    (∀ q r q2, queueDequeue q = .ok (r, q2) → r = none) ∧
    (∀ p r p2, pqRemoveMax p = .ok (r, p2) → r = none) ∧
    (∀ l i r l2, LL.remove l i = .ok (r, l2) → r = none) := by
  refine ⟨?_, ?_, ?_, ?_⟩
  · intro s r s2 h
    unfold ArrayStack.pop at h
    repeat' split at h
    all_goals simp_all
  · intro q r q2 h
    exact LL_remove_value_none q 0 r q2 h
  · intro p r p2 h
    unfold pqRemoveMax at h
    cases hl : pqRemoveLoop p p.length 1 with
    | error e => rw [hl] at h; exact absurd h (by simp [Except.map])
    | ok s3 => rw [hl] at h; simp [Except.map] at h; exact h.1.symm
  · intro l i r l2 h
    exact LL_remove_value_none l i r l2 h

/-- Witness for C10: the four removal operations evaluated on concrete
one-item containers all complete and return `None`. -/
theorem c10_removals_return_none_witness :
    ArrayStack.pop ⟨⟨[some "x"], 1⟩, 1⟩ = .ok (none, ⟨⟨[none], 0⟩, 0⟩) ∧
    queueDequeue ⟨[⟨"x", none, none⟩], some 0, some 0, 1⟩ =
      .ok (none, ⟨[⟨"x", none, none⟩], none, some 0, 0⟩) ∧
    pqRemoveMax [(1, ["a"])] = .ok (none, [(1, [])]) ∧
    LL.remove ⟨[⟨"x", none, none⟩], some 0, some 0, 1⟩ 0 =
      .ok (none, ⟨[⟨"x", none, none⟩], none, some 0, 0⟩) ∧
    (none : Option Item) = none :=
  ⟨rfl, rfl, rfl, rfl,
    c10_removals_return_none.2.2.1 [(1, ["a"])] none [(1, [])] rfl⟩
